import Mathlib

/-!
# Packer build resource: lifecycle and command construction

A shallow embedding of `provider/resource_packer_build.go`.

* A Go `map[string]string` is represented by the list of its entries in the order in
  which a `range` statement enumerates them (`GoMap`); a well-formed map has pairwise
  distinct keys.
* The outside world is explicit: `External` holds what the code obtains from outside the
  file (the package constant `tppRunPacker`, `os.Executable`, the command runner and the
  random UUID source), and `World` records the commands run and the number of UUIDs drawn.
* A Go method that writes through its `resp` pointer becomes a function that takes the
  response and returns the updated one.
-/

namespace Provider

/-! ## Framework value types -/

/-- Value `types.String` of the plugin framework: the three fields the resource code uses. -/
structure TypesString where
  Unknown : Bool
  Null : Bool
  Value : String
deriving DecidableEq, Repr

/-- Value `types.Bool` of the plugin framework. -/
structure TypesBool where
  Unknown : Bool
  Null : Bool
  Value : Bool
deriving DecidableEq, Repr

/-- The Go composite literal `types.String{Value: s}`: the other fields take their zero value. -/
def TypesString.ofValue (s : String) : TypesString :=
  { Unknown := false, Null := false, Value := s }

/-- A Go `map[string]string`, as the list of its entries in enumeration order. -/
abbrev GoMap := List (String × String)

/-- Lookup `m[k]` (with presence). -/
def GoMap.get (m : GoMap) (k : String) : Option String :=
  match m with
  | [] => none
  | (k1, v1) :: rest => if k1 = k then some v1 else GoMap.get rest k

/-- Assignment `m[k] = v`: the entry for `k` is replaced when present, added otherwise. -/
def GoMap.set (m : GoMap) (k v : String) : GoMap :=
  match m with
  | [] => [(k, v)]
  | (k1, v1) :: rest => if k1 = k then (k1, v) :: rest else (k1, v1) :: GoMap.set rest k v

/-- The keys of a map, in enumeration order. -/
def GoMap.keys (m : GoMap) : List String := m.map Prod.fst

/-- Struct `resourceBuildType`: the record decoded from configuration, plan or state. -/
structure resourceBuildType where
  ID : TypesString
  Variables : GoMap
  AdditionalParams : List String
  Directory : TypesString
  File : TypesString
  Environment : GoMap
  Triggers : GoMap
  Force : TypesBool
  BuildUUID : TypesString
deriving DecidableEq, Repr

/-! ## Diagnostics -/

/-- Severity of a diagnostic. -/
inductive Severity where
  | Error
  | Warning
deriving DecidableEq, Repr

/-- One diagnostic: severity, summary and detail. -/
structure Diagnostic where
  severity : Severity
  summary : String
  detail : String
deriving DecidableEq, Repr

/-- Value `diag.Diagnostics`. -/
abbrev Diagnostics := List Diagnostic

/-- Method `Diagnostics.Append`: adds each given diagnostic that is not already present. -/
def Diagnostics.Append (diags : Diagnostics) (more : List Diagnostic) : Diagnostics :=
  more.foldl (fun acc d => if d ∈ acc then acc else acc ++ [d]) diags

/-- Method `Diagnostics.HasError`: some diagnostic has error severity. -/
def Diagnostics.HasError (diags : Diagnostics) : Bool :=
  diags.any (fun d => decide (d.severity = Severity.Error))

/-- Method `Diagnostics.AddError`: appends an error diagnostic. -/
def Diagnostics.AddError (diags : Diagnostics) (summary detail : String) : Diagnostics :=
  Diagnostics.Append diags [{ severity := Severity.Error, summary := summary, detail := detail }]

/-! ## Requests and responses -/

/-- A `tfsdk.Config`, `tfsdk.Plan` or request-side `tfsdk.State`, as the resource observes it
through `Get`: the diagnostics `Get` returns and the record it decodes. -/
structure TfData where
  diags : Diagnostics
  value : resourceBuildType
deriving DecidableEq, Repr

/-- The response-side `tfsdk.State`: the record last stored in it, `none` when it holds no
resource. -/
abbrev State := Option resourceBuildType

/-- Method `State.Set` with a `resourceBuildType`: stores the record; encoding a record of this
struct into the schema it was decoded from yields no diagnostics. -/
def State.Set (_s : State) (v : resourceBuildType) : State × Diagnostics := (some v, [])

/-- Method `State.RemoveResource`. -/
def State.RemoveResource (_s : State) : State := none

structure CreateResourceRequest where
  Config : TfData

structure CreateResourceResponse where
  State : State
  Diagnostics : Diagnostics
deriving DecidableEq, Repr

structure ReadResourceRequest where
  State : TfData

structure ReadResourceResponse where
  State : State
  Diagnostics : Diagnostics
deriving DecidableEq, Repr

structure UpdateResourceRequest where
  Plan : TfData
  State : TfData

structure UpdateResourceResponse where
  State : State
  Diagnostics : Diagnostics
deriving DecidableEq, Repr

structure DeleteResourceRequest where
  State : TfData

structure DeleteResourceResponse where
  State : State
  Diagnostics : Diagnostics
deriving DecidableEq, Repr

/-! ## The outside world -/

/-- One call of `cmds.RunCommandWithEnvReturnOutput(exe, envVars, params...)`: everything the
call is given. -/
structure Invocation where
  exe : String
  envVars : GoMap
  params : List String
deriving DecidableEq, Repr

/-- What the command runner returns: the captured output and the error, if any. -/
structure CommandResult where
  output : String
  err : Option String
deriving DecidableEq, Repr

/-- What the file takes from outside itself. -/
structure External where
  /-- The package constant `tppRunPacker` (declared in another file of the package). -/
  tppRunPacker : String
  /-- The path `os.Executable()` returns. -/
  Executable : String
  /-- The command runner; its outcome may depend on the commands run before. -/
  RunCommandWithEnvReturnOutput : List Invocation → Invocation → CommandResult
  /-- The string of the n-th UUID that `uuid.NewRandom` draws (counting from 0). -/
  NewRandom : Nat → String

/-- The effects visible from outside: the commands run so far and the number of UUIDs drawn. -/
structure World where
  commands : List Invocation
  draws : Nat
deriving DecidableEq, Repr

/-! ## The resource code -/

/-- Lines 95 to 99 of `packerBuild`: the environment map handed to the command. -/
def packerBuildEnvVars (x : External) (resourceState : resourceBuildType) : GoMap :=
  let envVars : GoMap := []
  let envVars := resourceState.Environment.foldl
    (fun envVars kv => GoMap.set envVars kv.1 kv.2) envVars
  GoMap.set envVars x.tppRunPacker "true"

/-- Lines 101 to 109 of `packerBuild`: the argument list handed to the command. -/
def packerBuildParams (resourceState : resourceBuildType) : List String :=
  let params := ["build"]
  let params := resourceState.Variables.foldl
    (fun params kv => params ++ ["-var", kv.1 ++ "=" ++ kv.2]) params
  let params := if resourceState.Force.Value then params ++ ["-force"] else params
  let params := params ++ [resourceState.File.Value]
  params ++ resourceState.AdditionalParams

/-- The command call that `packerBuild` makes for a record. -/
def packerBuildInvocation (x : External) (resourceState : resourceBuildType) : Invocation :=
  { exe := x.Executable
    envVars := packerBuildEnvVars x resourceState
    params := packerBuildParams resourceState }

/-- Function `errors.Wrap(err, message)`, by the text of the error it returns. -/
def errorsWrap (err message : String) : String := message ++ ": " ++ err

/-- Method `resourceBuild.packerBuild`: runs the command and returns the wrapped error, if any. -/
def packerBuild (x : External) (w : World) (resourceState : resourceBuildType) :
    World × Option String :=
  let inv := packerBuildInvocation x resourceState
  let res := x.RunCommandWithEnvReturnOutput w.commands inv
  let w := { w with commands := w.commands ++ [inv] }
  match res.err with
  | some err =>
    (w, some (errorsWrap err ("could not run packer command; output: " ++ res.output)))
  | none => (w, none)

/-- Method `resourceBuild.updateState`: mints `ID` when it is unknown, and always mints
`BuildUUID`. -/
def updateState (x : External) (w : World) (resourceState : resourceBuildType) :
    World × resourceBuildType × Option String :=
  let (w, resourceState) :=
    if resourceState.ID.Unknown then
      ({ w with draws := w.draws + 1 },
       { resourceState with ID := TypesString.ofValue (x.NewRandom w.draws) })
    else (w, resourceState)
  let resourceState :=
    { resourceState with BuildUUID := TypesString.ofValue (x.NewRandom w.draws) }
  let w := { w with draws := w.draws + 1 }
  (w, resourceState, none)

/-- Method `resourceBuild.Create`. -/
def Create (x : External) (w : World) (req : CreateResourceRequest)
    (resp : CreateResourceResponse) : World × CreateResourceResponse :=
  let resourceState := req.Config.value
  let diags := req.Config.diags
  let resp := { resp with Diagnostics := resp.Diagnostics.Append diags }
  if resp.Diagnostics.HasError then (w, resp) else
  match packerBuild x w resourceState with
  | (w, some err) =>
    (w, { resp with Diagnostics := resp.Diagnostics.AddError "Failed to run packer" err })
  | (w, none) =>
  match updateState x w resourceState with
  | (w, _, some err) =>
    (w, { resp with Diagnostics := resp.Diagnostics.AddError "Failed to run packer" err })
  | (w, resourceState, none) =>
  let (st, diags) := State.Set resp.State resourceState
  (w, { resp with State := st, Diagnostics := resp.Diagnostics.Append diags })

/-- Method `resourceBuild.Read`. -/
def Read (w : World) (req : ReadResourceRequest) (resp : ReadResourceResponse) :
    World × ReadResourceResponse :=
  let state := req.State.value
  let diags := req.State.diags
  let resp := { resp with Diagnostics := resp.Diagnostics.Append diags }
  if resp.Diagnostics.HasError then (w, resp) else
  let (st, diags) := State.Set resp.State state
  (w, { resp with State := st, Diagnostics := resp.Diagnostics.Append diags })

/-- Method `resourceBuild.Update`. -/
def Update (x : External) (w : World) (req : UpdateResourceRequest)
    (resp : UpdateResourceResponse) : World × UpdateResourceResponse :=
  let plan := req.Plan.value
  let diags := req.Plan.diags
  let resp := { resp with Diagnostics := resp.Diagnostics.Append diags }
  if resp.Diagnostics.HasError then (w, resp) else
  let diags := req.State.diags
  let resp := { resp with Diagnostics := resp.Diagnostics.Append diags }
  if resp.Diagnostics.HasError then (w, resp) else
  match packerBuild x w plan with
  | (w, some err) =>
    (w, { resp with Diagnostics := resp.Diagnostics.AddError "Failed to run packer" err })
  | (w, none) =>
  match updateState x w plan with
  | (w, _, some err) =>
    (w, { resp with Diagnostics := resp.Diagnostics.AddError "Failed to run packer" err })
  | (w, plan, none) =>
  let (st, diags) := State.Set resp.State plan
  (w, { resp with State := st, Diagnostics := resp.Diagnostics.Append diags })

/-- Method `resourceBuild.Delete`. -/
def Delete (w : World) (req : DeleteResourceRequest) (resp : DeleteResourceResponse) :
    World × DeleteResourceResponse :=
  let diags := req.State.diags
  let resp := { resp with Diagnostics := resp.Diagnostics.Append diags }
  if resp.Diagnostics.HasError then (w, resp) else
  (w, { resp with State := State.RemoveResource resp.State })

/-- Successive updates of one resource, as the host drives them: each call gets the record
the resource holds as its prior state, in the request and in the response it starts from, and
the next call starts from the world and from the record this call left. -/
def UpdateSeq (x : External) : World → resourceBuildType → List TfData → World × State
  | w, st, [] => (w, some st)
  | w, st, plan :: rest =>
    match Update x w { Plan := plan, State := { diags := [], value := st } }
        { State := some st, Diagnostics := [] } with
    | (w1, resp1) =>
      match resp1.State with
      | some st1 => UpdateSeq x w1 st1 rest
      | none => (w1, none)

/-! ## Sample inputs -/

/-- A record with every attribute unset, as decoded from a configuration that gives only
`file`: computed attributes of a configuration are null. -/
def sampleConfig : resourceBuildType :=
  { ID := { Unknown := false, Null := true, Value := "" }
    Variables := [("env", "prod")]
    AdditionalParams := ["-debug"]
    Directory := { Unknown := false, Null := true, Value := "" }
    File := TypesString.ofValue "image.pkr.hcl"
    Environment := [("PACKER_LOG", "1")]
    Triggers := []
    Force := { Unknown := false, Null := false, Value := true }
    BuildUUID := { Unknown := false, Null := true, Value := "" } }

/-- A world outside in which every command succeeds and the n-th UUID is written with n + 1
letters, so that no two draws agree. -/
def sampleExternal : External :=
  { tppRunPacker := "TPP_RUN_PACKER"
    Executable := "/usr/bin/terraform-provider-packer"
    RunCommandWithEnvReturnOutput := fun _ _ => { output := "ok", err := none }
    NewRandom := fun n => String.join (List.replicate (n + 1) "u") }

/-- A world outside in which every command fails. -/
def failingExternal : External :=
  { sampleExternal with
    RunCommandWithEnvReturnOutput := fun _ _ => { output := "boom", err := some "exit status 1" } }

/-- The world before anything ran. -/
def emptyWorld : World := { commands := [], draws := 0 }

/-- A configuration whose environment itself gives the marker key, with another value. -/
def markerConfig : resourceBuildType :=
  { sampleConfig with Environment := [("TPP_RUN_PACKER", "false"), ("PACKER_LOG", "1")] }

/-- A configuration with two variables. -/
def twoVarConfig : resourceBuildType :=
  { sampleConfig with Variables := [("env", "prod"), ("region", "eu")] }

/-- The two variables of `twoVarConfig`, enumerated the other way round. -/
def twoVarReordered : GoMap := [("region", "eu"), ("env", "prod")]

/-- The configuration of `sampleConfig` with a working directory set. -/
def directoryConfig : resourceBuildType :=
  { sampleConfig with Directory := TypesString.ofValue "/srv/images" }

/-- A record as `Get` decodes it without diagnostics. -/
def decoded (r : resourceBuildType) : TfData := { diags := [], value := r }

/-- The value of a computed attribute that the plan leaves to the provider. -/
def unknownString : TypesString := { Unknown := true, Null := false, Value := "" }

/-- The record a first successful build of `sampleConfig` could have left: an id and a build
UUID from the first two draws. -/
def samplePrior : resourceBuildType :=
  { sampleConfig with
    ID := TypesString.ofValue (sampleExternal.NewRandom 0)
    BuildUUID := TypesString.ofValue (sampleExternal.NewRandom 1) }

/-- The world after the two draws of `samplePrior`. -/
def priorWorld : World := { commands := [], draws := 2 }

/-- A plan for `samplePrior` in which both computed attributes are unknown. -/
def unknownIdPlan : resourceBuildType :=
  { sampleConfig with ID := unknownString, BuildUUID := unknownString }

/-- A plan for `samplePrior` that carries its id, with the build UUID unknown. -/
def knownIdPlan : resourceBuildType :=
  { sampleConfig with ID := samplePrior.ID, BuildUUID := unknownString }

/-- A fresh response of Create: no state yet, no diagnostics. -/
def freshCreateResponse : CreateResourceResponse := { State := none, Diagnostics := [] }

/-- A response of Update initialised with the prior record. -/
def priorUpdateResponse : UpdateResourceResponse :=
  { State := some samplePrior, Diagnostics := [] }

/-- A response of Read initialised with the prior record. -/
def priorReadResponse : ReadResourceResponse :=
  { State := some samplePrior, Diagnostics := [] }

/-- A prior record that differs from the plans above in every attribute that feeds a
command. -/
def stalePrior : resourceBuildType :=
  { ID := TypesString.ofValue (sampleExternal.NewRandom 0)
    Variables := [("env", "dev"), ("region", "us")]
    AdditionalParams := ["-on-error=abort"]
    Directory := { Unknown := false, Null := true, Value := "" }
    File := TypesString.ofValue "old.pkr.hcl"
    Environment := [("PACKER_LOG", "0")]
    Triggers := []
    Force := { Unknown := false, Null := false, Value := false }
    BuildUUID := TypesString.ofValue (sampleExternal.NewRandom 1) }

/-- A first update of `samplePrior` under a plan that carries its id. -/
def firstUpdateRequest : UpdateResourceRequest :=
  { Plan := decoded knownIdPlan, State := decoded samplePrior }

/-- The world and response the first update leaves. -/
def firstUpdate : World × UpdateResourceResponse :=
  Update sampleExternal priorWorld firstUpdateRequest priorUpdateResponse

/-- A second update, of the record the first one left, under the same plan. -/
def secondUpdateRequest : UpdateResourceRequest :=
  { Plan := decoded knownIdPlan, State := decoded (firstUpdate.2.State.getD samplePrior) }

/-- The world and response the second update leaves. -/
def secondUpdate : World × UpdateResourceResponse :=
  Update sampleExternal firstUpdate.1 secondUpdateRequest firstUpdate.2

/-! ## Maps -/

theorem GoMap.get_set (m : GoMap) (k v k2 : String) :
    GoMap.get (GoMap.set m k v) k2 = if k2 = k then some v else GoMap.get m k2 := by
  induction m with
  | nil =>
    by_cases h : k2 = k
    · simp [GoMap.set, GoMap.get, h]
    · have h2 : ¬ k = k2 := fun e => h e.symm
      simp [GoMap.set, GoMap.get, h, h2]
  | cons e rest ih =>
    obtain ⟨k1, v1⟩ := e
    by_cases h1 : k1 = k
    · by_cases h : k2 = k
      · simp [GoMap.set, GoMap.get, h1, h]
      · have h2 : ¬ k = k2 := fun e => h e.symm
        simp [GoMap.set, GoMap.get, h1, h, h2]
    · by_cases h : k2 = k
      · subst h
        simp [GoMap.set, GoMap.get, h1, ih]
      · by_cases h3 : k1 = k2
        · subst h3
          simp [GoMap.set, GoMap.get, h1]
        · simp [GoMap.set, GoMap.get, h1, h, h3, ih]

theorem GoMap.get_eq_none_of_not_mem_keys (m : GoMap) (k : String) (h : k ∉ GoMap.keys m) :
    GoMap.get m k = none := by
  induction m with
  | nil => rfl
  | cons e rest ih =>
    obtain ⟨k1, v1⟩ := e
    simp only [GoMap.keys, List.map_cons, List.mem_cons, not_or] at h
    have h1 : ¬ k1 = k := fun e => h.1 e.symm
    simp only [GoMap.get, h1, if_false]
    exact ih h.2

theorem GoMap.mem_keys_iff_get_isSome (m : GoMap) (k : String) :
    k ∈ GoMap.keys m ↔ (GoMap.get m k).isSome = true := by
  induction m with
  | nil => simp [GoMap.keys, GoMap.get]
  | cons e rest ih =>
    obtain ⟨k1, v1⟩ := e
    by_cases h1 : k1 = k
    · simp [GoMap.keys, GoMap.get, h1]
    · have h2 : ¬ k = k1 := fun e => h1 e.symm
      have ih2 : k ∈ List.map Prod.fst rest ↔ (GoMap.get rest k).isSome = true := ih
      simp only [GoMap.keys, List.map_cons, List.mem_cons, GoMap.get, h1, h2, if_false,
        false_or]
      exact ih2

theorem GoMap.keys_set (m : GoMap) (k v : String) :
    GoMap.keys (GoMap.set m k v) = if k ∈ GoMap.keys m then GoMap.keys m else GoMap.keys m ++ [k] := by
  induction m with
  | nil => simp [GoMap.set, GoMap.keys]
  | cons e rest ih =>
    obtain ⟨k1, v1⟩ := e
    have ih2 : List.map Prod.fst (GoMap.set rest k v)
        = if k ∈ List.map Prod.fst rest then List.map Prod.fst rest
          else List.map Prod.fst rest ++ [k] := ih
    by_cases h1 : k1 = k
    · simp [GoMap.set, GoMap.keys, h1]
    · have h2 : ¬ k = k1 := fun e => h1 e.symm
      by_cases h3 : k ∈ List.map Prod.fst rest
      · simp [GoMap.set, GoMap.keys, h1, h2, h3, ih2]
      · simp [GoMap.set, GoMap.keys, h1, h2, h3, ih2]

theorem GoMap.keys_set_nodup (m : GoMap) (k v : String) (h : (GoMap.keys m).Nodup) :
    (GoMap.keys (GoMap.set m k v)).Nodup := by
  rw [GoMap.keys_set]
  by_cases hk : k ∈ GoMap.keys m
  · simpa [hk] using h
  · simp only [hk, if_false]
    exact List.Nodup.append h (List.nodup_singleton k) (by simpa using hk)

/-- Copying a map entry by entry, as the loop of lines 96 to 98 does. -/
theorem GoMap.get_foldl_set (m init : GoMap) (k : String) (h : (GoMap.keys m).Nodup) :
    GoMap.get (m.foldl (fun envVars kv => GoMap.set envVars kv.1 kv.2) init) k
      = (GoMap.get m k).orElse (fun _ => GoMap.get init k) := by
  induction m generalizing init with
  | nil => simp [GoMap.get]
  | cons e rest ih =>
    obtain ⟨k1, v1⟩ := e
    have hn : k1 ∉ GoMap.keys rest ∧ (GoMap.keys rest).Nodup := by
      simpa [GoMap.keys] using h
    rw [List.foldl_cons, ih _ hn.2, GoMap.get_set]
    by_cases h1 : k1 = k
    · subst h1
      simp [GoMap.get, GoMap.get_eq_none_of_not_mem_keys rest k1 hn.1]
    · have h2 : ¬ k = k1 := fun e => h1 e.symm
      simp [GoMap.get, h1, h2]

theorem GoMap.keys_foldl_set_nodup (m init : GoMap) (h : (GoMap.keys init).Nodup) :
    (GoMap.keys (m.foldl (fun envVars kv => GoMap.set envVars kv.1 kv.2) init)).Nodup := by
  induction m generalizing init with
  | nil => simpa using h
  | cons e rest ih =>
    rw [List.foldl_cons]
    exact ih _ (GoMap.keys_set_nodup init e.1 e.2 h)

/-! ## The argument list -/

theorem foldl_var_tokens (m : GoMap) (init : List String) :
    m.foldl (fun params kv => params ++ ["-var", kv.1 ++ "=" ++ kv.2]) init
      = init ++ m.flatMap (fun kv => ["-var", kv.1 ++ "=" ++ kv.2]) := by
  induction m generalizing init with
  | nil => simp
  | cons e rest ih => rw [List.foldl_cons, ih]; simp

theorem packerBuildParams_eq (cfg : resourceBuildType) :
    packerBuildParams cfg
      = ["build"] ++ cfg.Variables.flatMap (fun kv => ["-var", kv.1 ++ "=" ++ kv.2])
        ++ (if cfg.Force.Value = true then ["-force"] else [])
        ++ [cfg.File.Value] ++ cfg.AdditionalParams := by
  unfold packerBuildParams
  simp only [foldl_var_tokens]
  by_cases hf : cfg.Force.Value = true <;> simp [hf]

theorem packerBuild_commands (x : External) (w : World) (cfg : resourceBuildType) :
    (packerBuild x w cfg).1.commands = w.commands ++ [packerBuildInvocation x cfg] := by
  unfold packerBuild
  cases h : (x.RunCommandWithEnvReturnOutput w.commands (packerBuildInvocation x cfg)).err <;>
    simp [h]

theorem packerBuild_draws (x : External) (w : World) (cfg : resourceBuildType) :
    (packerBuild x w cfg).1.draws = w.draws := by
  unfold packerBuild
  cases h : (x.RunCommandWithEnvReturnOutput w.commands (packerBuildInvocation x cfg)).err <;>
    simp [h]

theorem countP_eq_zero_of_not_mem (m : GoMap) (kv : String × String) (h : kv ∉ m) :
    m.countP (fun e => decide (e = kv)) = 0 := by
  induction m with
  | nil => rfl
  | cons e rest ih =>
    have hne : ¬ e = kv := fun he => h (he ▸ List.mem_cons_self e rest)
    have hrest : kv ∉ rest := fun hm => h (List.mem_cons_of_mem e hm)
    rw [List.countP_cons, ih hrest]
    simp [hne]

theorem countP_eq_one_of_nodup (m : GoMap) (kv : String × String) (hn : m.Nodup)
    (h : kv ∈ m) : m.countP (fun e => decide (e = kv)) = 1 := by
  induction m with
  | nil => exact absurd h (List.not_mem_nil kv)
  | cons e rest ih =>
    have hn2 : e ∉ rest ∧ rest.Nodup := List.nodup_cons.1 hn
    rw [List.countP_cons]
    by_cases he : e = kv
    · subst he
      rw [countP_eq_zero_of_not_mem rest e hn2.1]
      simp
    · have hrest : kv ∈ rest := by
        rcases List.mem_cons.1 h with h1 | h1
        · exact absurd h1.symm he
        · exact h1
      rw [ih hn2.2 hrest]
      simp [he]

theorem length_var_tokens (m : GoMap) :
    (m.flatMap (fun kv => ["-var", kv.1 ++ "=" ++ kv.2])).length = 2 * m.length := by
  induction m with
  | nil => rfl
  | cons e rest ih =>
    rw [List.flatMap_cons, List.length_append, ih, List.length_cons]
    simp only [List.length_cons, List.length_nil]
    omega

theorem flatMap_var_pairs (m : GoMap) :
    (m.map (fun kv => (("-var", kv.1 ++ "=" ++ kv.2) : String × String))).flatMap
        (fun p => [p.1, p.2])
      = m.flatMap (fun kv => ["-var", kv.1 ++ "=" ++ kv.2]) := by
  induction m with
  | nil => rfl
  | cons e rest ih =>
    rw [List.map_cons, List.flatMap_cons, List.flatMap_cons, ih]

/-! ## Diagnostics -/

theorem Diagnostics.mem_Append (diags more : List Diagnostic) (d : Diagnostic) :
    d ∈ Diagnostics.Append diags more ↔ d ∈ diags ∨ d ∈ more := by
  unfold Diagnostics.Append
  induction more generalizing diags with
  | nil => simp
  | cons e rest ih =>
    rw [List.foldl_cons, ih]
    by_cases he : e ∈ diags
    · simp only [he, if_true, List.mem_cons]
      constructor
      · rintro (h | h)
        · exact Or.inl h
        · exact Or.inr (Or.inr h)
      · rintro (h | h | h)
        · exact Or.inl h
        · exact Or.inl (h ▸ he)
        · exact Or.inr h
    · simp only [he, if_false, List.mem_append, List.mem_singleton, List.mem_cons]
      tauto

theorem Diagnostics.HasError_iff (diags : List Diagnostic) :
    Diagnostics.HasError diags = true ↔ ∃ d ∈ diags, d.severity = Severity.Error := by
  simp [Diagnostics.HasError, List.any_eq_true]

theorem Diagnostics.HasError_Append (diags more : List Diagnostic) :
    Diagnostics.HasError (Diagnostics.Append diags more)
      = (Diagnostics.HasError diags || Diagnostics.HasError more) := by
  rw [Bool.eq_iff_iff, Bool.or_eq_true, Diagnostics.HasError_iff, Diagnostics.HasError_iff,
    Diagnostics.HasError_iff]
  constructor
  · rintro ⟨d, hd, he⟩
    rcases (Diagnostics.mem_Append diags more d).1 hd with h | h
    · exact Or.inl ⟨d, h, he⟩
    · exact Or.inr ⟨d, h, he⟩
  · rintro (⟨d, h, he⟩ | ⟨d, h, he⟩)
    · exact ⟨d, (Diagnostics.mem_Append diags more d).2 (Or.inl h), he⟩
    · exact ⟨d, (Diagnostics.mem_Append diags more d).2 (Or.inr h), he⟩

theorem Diagnostics.Append_nil (diags : List Diagnostic) :
    Diagnostics.Append diags [] = diags := rfl

/-- On diagnostics without an error, `AddError` really adds one diagnostic at the end. -/
theorem Diagnostics.AddError_of_no_error (diags : List Diagnostic) (summary detail : String)
    (h : Diagnostics.HasError diags = false) :
    Diagnostics.AddError diags summary detail
      = diags ++ [{ severity := Severity.Error, summary := summary, detail := detail }] := by
  have hn : ({ severity := Severity.Error, summary := summary, detail := detail } : Diagnostic)
      ∉ diags := by
    intro hmem
    have : Diagnostics.HasError diags = true :=
      (Diagnostics.HasError_iff diags).2 ⟨_, hmem, rfl⟩
    rw [h] at this
    exact Bool.noConfusion this
  simp [Diagnostics.AddError, Diagnostics.Append, hn]

theorem Diagnostics.HasError_AddError (diags : List Diagnostic) (summary detail : String) :
    Diagnostics.HasError (Diagnostics.AddError diags summary detail) = true := by
  unfold Diagnostics.AddError
  rw [Diagnostics.HasError_Append, Bool.or_eq_true]
  exact Or.inr (by simp [Diagnostics.HasError])

/-! ## The lifecycle operations, case by case -/

theorem updateState_eq (x : External) (w : World) (r : resourceBuildType) :
    updateState x w r
      = ({ commands := w.commands, draws := w.draws + (if r.ID.Unknown = true then 2 else 1) },
         { r with
           ID := if r.ID.Unknown = true then TypesString.ofValue (x.NewRandom w.draws) else r.ID
           BuildUUID := TypesString.ofValue
             (x.NewRandom (w.draws + (if r.ID.Unknown = true then 1 else 0))) },
         none) := by
  unfold updateState
  by_cases h : r.ID.Unknown = true <;> simp [h]

theorem packerBuild_of_err (x : External) (w : World) (cfg : resourceBuildType) (e : String)
    (h : (x.RunCommandWithEnvReturnOutput w.commands (packerBuildInvocation x cfg)).err = some e) :
    packerBuild x w cfg
      = ({ commands := w.commands ++ [packerBuildInvocation x cfg], draws := w.draws },
         some (errorsWrap e ("could not run packer command; output: " ++
           (x.RunCommandWithEnvReturnOutput w.commands (packerBuildInvocation x cfg)).output))) := by
  unfold packerBuild
  simp [h]

theorem packerBuild_of_ok (x : External) (w : World) (cfg : resourceBuildType)
    (h : (x.RunCommandWithEnvReturnOutput w.commands (packerBuildInvocation x cfg)).err = none) :
    packerBuild x w cfg
      = ({ commands := w.commands ++ [packerBuildInvocation x cfg], draws := w.draws }, none) := by
  unfold packerBuild
  simp [h]

theorem Create_of_build_err (x : External) (w : World) (req : CreateResourceRequest)
    (resp : CreateResourceResponse) (e : String)
    (h0 : Diagnostics.HasError resp.Diagnostics = false)
    (h1 : Diagnostics.HasError req.Config.diags = false)
    (h : (x.RunCommandWithEnvReturnOutput w.commands
      (packerBuildInvocation x req.Config.value)).err = some e) :
    Create x w req resp
      = ({ commands := w.commands ++ [packerBuildInvocation x req.Config.value],
           draws := w.draws },
         { State := resp.State
           Diagnostics := Diagnostics.Append resp.Diagnostics req.Config.diags ++
             [{ severity := Severity.Error, summary := "Failed to run packer",
                detail := errorsWrap e ("could not run packer command; output: " ++
                  (x.RunCommandWithEnvReturnOutput w.commands
                    (packerBuildInvocation x req.Config.value)).output) }] }) := by
  have hA : Diagnostics.HasError (Diagnostics.Append resp.Diagnostics req.Config.diags) = false := by
    rw [Diagnostics.HasError_Append, h0, h1]; rfl
  unfold Create
  simp only [hA, packerBuild_of_err x w _ e h, Diagnostics.AddError_of_no_error _ _ _ hA]
  rfl

theorem Create_of_build_ok (x : External) (w : World) (req : CreateResourceRequest)
    (resp : CreateResourceResponse)
    (h0 : Diagnostics.HasError resp.Diagnostics = false)
    (h1 : Diagnostics.HasError req.Config.diags = false)
    (h : (x.RunCommandWithEnvReturnOutput w.commands
      (packerBuildInvocation x req.Config.value)).err = none) :
    Create x w req resp
      = ({ commands := w.commands ++ [packerBuildInvocation x req.Config.value],
           draws := w.draws + (if req.Config.value.ID.Unknown = true then 2 else 1) },
         { State := some { req.Config.value with
             ID := if req.Config.value.ID.Unknown = true
               then TypesString.ofValue (x.NewRandom w.draws) else req.Config.value.ID
             BuildUUID := TypesString.ofValue (x.NewRandom
               (w.draws + (if req.Config.value.ID.Unknown = true then 1 else 0))) }
           Diagnostics := Diagnostics.Append resp.Diagnostics req.Config.diags }) := by
  have hA : Diagnostics.HasError (Diagnostics.Append resp.Diagnostics req.Config.diags) = false := by
    rw [Diagnostics.HasError_Append, h0, h1]; rfl
  unfold Create
  simp only [hA, packerBuild_of_ok x w _ h, updateState_eq, State.Set, Diagnostics.Append_nil]
  rfl

theorem Update_of_build_err (x : External) (w : World) (req : UpdateResourceRequest)
    (resp : UpdateResourceResponse) (e : String)
    (h0 : Diagnostics.HasError resp.Diagnostics = false)
    (h1 : Diagnostics.HasError req.Plan.diags = false)
    (h2 : Diagnostics.HasError req.State.diags = false)
    (h : (x.RunCommandWithEnvReturnOutput w.commands
      (packerBuildInvocation x req.Plan.value)).err = some e) :
    Update x w req resp
      = ({ commands := w.commands ++ [packerBuildInvocation x req.Plan.value],
           draws := w.draws },
         { State := resp.State
           Diagnostics :=
             Diagnostics.Append (Diagnostics.Append resp.Diagnostics req.Plan.diags)
               req.State.diags ++
             [{ severity := Severity.Error, summary := "Failed to run packer",
                detail := errorsWrap e ("could not run packer command; output: " ++
                  (x.RunCommandWithEnvReturnOutput w.commands
                    (packerBuildInvocation x req.Plan.value)).output) }] }) := by
  have hA : Diagnostics.HasError (Diagnostics.Append resp.Diagnostics req.Plan.diags) = false := by
    rw [Diagnostics.HasError_Append, h0, h1]; rfl
  have hB : Diagnostics.HasError
      (Diagnostics.Append (Diagnostics.Append resp.Diagnostics req.Plan.diags) req.State.diags)
        = false := by
    rw [Diagnostics.HasError_Append, hA, h2]; rfl
  unfold Update
  simp only [hA, hB, packerBuild_of_err x w _ e h, Diagnostics.AddError_of_no_error _ _ _ hB]
  rfl

theorem Update_of_build_ok (x : External) (w : World) (req : UpdateResourceRequest)
    (resp : UpdateResourceResponse)
    (h0 : Diagnostics.HasError resp.Diagnostics = false)
    (h1 : Diagnostics.HasError req.Plan.diags = false)
    (h2 : Diagnostics.HasError req.State.diags = false)
    (h : (x.RunCommandWithEnvReturnOutput w.commands
      (packerBuildInvocation x req.Plan.value)).err = none) :
    Update x w req resp
      = ({ commands := w.commands ++ [packerBuildInvocation x req.Plan.value],
           draws := w.draws + (if req.Plan.value.ID.Unknown = true then 2 else 1) },
         { State := some { req.Plan.value with
             ID := if req.Plan.value.ID.Unknown = true
               then TypesString.ofValue (x.NewRandom w.draws) else req.Plan.value.ID
             BuildUUID := TypesString.ofValue (x.NewRandom
               (w.draws + (if req.Plan.value.ID.Unknown = true then 1 else 0))) }
           Diagnostics :=
             Diagnostics.Append (Diagnostics.Append resp.Diagnostics req.Plan.diags)
               req.State.diags }) := by
  have hA : Diagnostics.HasError (Diagnostics.Append resp.Diagnostics req.Plan.diags) = false := by
    rw [Diagnostics.HasError_Append, h0, h1]; rfl
  have hB : Diagnostics.HasError
      (Diagnostics.Append (Diagnostics.Append resp.Diagnostics req.Plan.diags) req.State.diags)
        = false := by
    rw [Diagnostics.HasError_Append, hA, h2]; rfl
  unfold Update
  simp only [hA, hB, packerBuild_of_ok x w _ h, updateState_eq, State.Set,
    Diagnostics.Append_nil]
  rfl

theorem Read_of_decoded (w : World) (req : ReadResourceRequest) (resp : ReadResourceResponse)
    (h0 : Diagnostics.HasError resp.Diagnostics = false)
    (h1 : Diagnostics.HasError req.State.diags = false) :
    Read w req resp
      = (w, { State := some req.State.value
              Diagnostics := Diagnostics.Append resp.Diagnostics req.State.diags }) := by
  have hA : Diagnostics.HasError (Diagnostics.Append resp.Diagnostics req.State.diags) = false := by
    rw [Diagnostics.HasError_Append, h0, h1]; rfl
  unfold Read
  simp only [hA, State.Set, Diagnostics.Append_nil]
  rfl

theorem TypesString.ofValue_ne (a b : String) (h : a ≠ b) :
    TypesString.ofValue a ≠ TypesString.ofValue b := by
  intro he
  exact h (congrArg TypesString.Value he)

/-- The world Update leaves, in every case: untouched when some diagnostic is an error, and
otherwise the one command built from the plan, with the draws of `updateState` when the
command succeeded. -/
theorem Update_world (x : External) (w : World) (req : UpdateResourceRequest)
    (resp : UpdateResourceResponse) :
    (Update x w req resp).1
      = if (Diagnostics.HasError resp.Diagnostics || Diagnostics.HasError req.Plan.diags
            || Diagnostics.HasError req.State.diags) = true
        then w
        else { commands := w.commands ++ [packerBuildInvocation x req.Plan.value],
               draws := if (x.RunCommandWithEnvReturnOutput w.commands
                   (packerBuildInvocation x req.Plan.value)).err = none
                 then w.draws + (if req.Plan.value.ID.Unknown = true then 2 else 1)
                 else w.draws } := by
  cases h0 : Diagnostics.HasError resp.Diagnostics with
  | true => simp [Update, Diagnostics.HasError_Append, h0]
  | false =>
    cases h1 : Diagnostics.HasError req.Plan.diags with
    | true => simp [Update, Diagnostics.HasError_Append, h0, h1]
    | false =>
      cases h2 : Diagnostics.HasError req.State.diags with
      | true => simp [Update, Diagnostics.HasError_Append, h0, h1, h2]
      | false =>
        cases he : (x.RunCommandWithEnvReturnOutput w.commands
            (packerBuildInvocation x req.Plan.value)).err with
        | none =>
          rw [Update_of_build_ok x w req resp h0 h1 h2 he]
          simp
        | some e =>
          rw [Update_of_build_err x w req resp e h0 h1 h2 he]
          simp

/-- Lookup in the environment map built by lines 95 to 99. -/
theorem packerBuildEnvVars_get (x : External) (cfg : resourceBuildType)
    (hkeys : (GoMap.keys cfg.Environment).Nodup) (k : String) :
    GoMap.get (packerBuildEnvVars x cfg) k
      = if k = x.tppRunPacker then some "true" else GoMap.get cfg.Environment k := by
  show GoMap.get (GoMap.set (cfg.Environment.foldl
    (fun envVars kv => GoMap.set envVars kv.1 kv.2) []) x.tppRunPacker "true") k = _
  rw [GoMap.get_set, GoMap.get_foldl_set _ _ _ hkeys]
  by_cases hk : k = x.tppRunPacker
  · simp [hk]
  · cases hg : GoMap.get cfg.Environment k <;> simp [hk, GoMap.get]

/-! ## The command that is run -/

/-- C1: the argument list `packerBuild` hands to the command is the token `build`, then for
each entry of `variables`, in the order the mapping is enumerated, the two tokens `-var` and
`k=v`, then `-force` exactly when `force` is true, then the file, then `additional_params`
as they are; the configuration of the example yields the six tokens the example lists. -/
theorem packerBuild_params_exact (x : External) (w : World) (cfg : resourceBuildType) :
    (packerBuild x w cfg).1.commands = w.commands ++ [packerBuildInvocation x cfg]
    ∧ (packerBuildInvocation x cfg).params
        = ["build"] ++ cfg.Variables.flatMap (fun kv => ["-var", kv.1 ++ "=" ++ kv.2])
          ++ (if cfg.Force.Value = true then ["-force"] else [])
          ++ [cfg.File.Value] ++ cfg.AdditionalParams
    ∧ (packerBuildInvocation x sampleConfig).params
        = ["build", "-var", "env=prod", "-force", "image.pkr.hcl", "-debug"] := by
  have hex : packerBuildParams sampleConfig
      = ["build", "-var", "env=prod", "-force", "image.pkr.hcl", "-debug"] := by decide
  exact ⟨packerBuild_commands x w cfg, packerBuildParams_eq cfg, hex⟩

/-- C7: the environment map `packerBuild` hands to the command maps the marker key
`tppRunPacker` to `true`, whatever the configured environment gives for that key, and every
other key to exactly what the configured environment gives it; its keys are the marker and the
configured keys, each once. The configured environment is a map: its keys are distinct. -/
theorem packerBuild_envVars_exact (x : External) (w : World) (cfg : resourceBuildType)
    (hkeys : (GoMap.keys cfg.Environment).Nodup) :
    (packerBuild x w cfg).1.commands = w.commands ++ [packerBuildInvocation x cfg]
    ∧ (∀ k, GoMap.get (packerBuildInvocation x cfg).envVars k
        = if k = x.tppRunPacker then some "true" else GoMap.get cfg.Environment k)
    ∧ (∀ k, k ∈ GoMap.keys (packerBuildInvocation x cfg).envVars
        ↔ k = x.tppRunPacker ∨ k ∈ GoMap.keys cfg.Environment)
    ∧ (GoMap.keys (packerBuildInvocation x cfg).envVars).Nodup := by
  have hget : ∀ k, GoMap.get (packerBuildInvocation x cfg).envVars k
      = if k = x.tppRunPacker then some "true" else GoMap.get cfg.Environment k := by
    intro k
    show GoMap.get (GoMap.set (cfg.Environment.foldl
      (fun envVars kv => GoMap.set envVars kv.1 kv.2) []) x.tppRunPacker "true") k = _
    rw [GoMap.get_set, GoMap.get_foldl_set _ _ _ hkeys]
    by_cases hk : k = x.tppRunPacker
    · simp [hk]
    · cases hg : GoMap.get cfg.Environment k <;> simp [hk, GoMap.get]
  refine ⟨packerBuild_commands x w cfg, hget, ?_, ?_⟩
  · intro k
    rw [GoMap.mem_keys_iff_get_isSome, GoMap.mem_keys_iff_get_isSome, hget]
    by_cases hk : k = x.tppRunPacker <;> simp [hk]
  · show (GoMap.keys (GoMap.set (cfg.Environment.foldl
      (fun envVars kv => GoMap.set envVars kv.1 kv.2) []) x.tppRunPacker "true")).Nodup
    exact GoMap.keys_set_nodup _ _ _ (GoMap.keys_foldl_set_nodup _ _ List.nodup_nil)

/-- The marker wins over a configured value for the marker key, and the other key keeps its
configured value. -/
theorem packerBuild_envVars_exact_witness :
    (GoMap.keys markerConfig.Environment).Nodup
    ∧ GoMap.get (packerBuildInvocation sampleExternal markerConfig).envVars "TPP_RUN_PACKER"
        = some "true"
    ∧ GoMap.get (packerBuildInvocation sampleExternal markerConfig).envVars "PACKER_LOG"
        = some "1" :=
  ⟨by decide,
   (packerBuild_envVars_exact sampleExternal emptyWorld markerConfig (by decide)).2.1
     "TPP_RUN_PACKER",
   (packerBuild_envVars_exact sampleExternal emptyWorld markerConfig (by decide)).2.1
     "PACKER_LOG"⟩

/-- C9 (evaluation of the code): the command call does not depend on the `directory`
attribute. Two configurations that differ only in `directory` run the same executable with
the same environment and arguments, and the call carries no working directory; so it is for
`sampleConfig`, which leaves `directory` unset, and `directoryConfig`, which sets it. -/
theorem packerBuild_ignores_directory (x : External) (w : World) (cfg : resourceBuildType)
    (dir : TypesString) :
    packerBuild x w { cfg with Directory := dir } = packerBuild x w cfg
    ∧ packerBuildInvocation x { cfg with Directory := dir } = packerBuildInvocation x cfg
    ∧ directoryConfig.Directory ≠ sampleConfig.Directory
    ∧ packerBuild sampleExternal emptyWorld directoryConfig
        = packerBuild sampleExternal emptyWorld sampleConfig :=
  ⟨rfl, rfl, by decide, rfl⟩

/-- C10: whatever the order in which the `variables` mapping (with distinct keys) is
enumerated, the argument list is `build`, then one pair `-var`, `k=v` per entry and nothing
else, then the tokens for `force`, the file and `additional_params`: every entry is enumerated
once, a pair occurs as many times as there are entries that yield it, the length is
`1 + 2 * |variables| + (1 if force) + 1 + |additional_params|`, and under two orders the pairs
are a permutation of each other while the first token and the tokens after the pairs agree. -/
theorem packerBuild_params_any_order (cfg : resourceBuildType) (order : GoMap)
    (hkeys : (GoMap.keys cfg.Variables).Nodup) (horder : order.Perm cfg.Variables) :
    let pair : String × String → String × String := fun kv => ("-var", kv.1 ++ "=" ++ kv.2)
    let suffix : List String :=
      (if cfg.Force.Value = true then ["-force"] else []) ++ [cfg.File.Value]
        ++ cfg.AdditionalParams
    packerBuildParams { cfg with Variables := order }
        = ["build"] ++ (order.map pair).flatMap (fun p => [p.1, p.2]) ++ suffix
    ∧ packerBuildParams cfg
        = ["build"] ++ (cfg.Variables.map pair).flatMap (fun p => [p.1, p.2]) ++ suffix
    ∧ (order.map pair).Perm (cfg.Variables.map pair)
    ∧ (∀ kv ∈ cfg.Variables, order.countP (fun e => decide (e = kv)) = 1)
    ∧ (∀ p, (order.map pair).countP (fun q => decide (q = p))
        = cfg.Variables.countP (fun kv => decide (pair kv = p)))
    ∧ (packerBuildParams { cfg with Variables := order }).length
        = 1 + 2 * cfg.Variables.length + (if cfg.Force.Value = true then 1 else 0) + 1
          + cfg.AdditionalParams.length
    ∧ (packerBuildParams { cfg with Variables := order }).Perm (packerBuildParams cfg) := by
  intro pair suffix
  have hnodup : cfg.Variables.Nodup := List.Nodup.of_map Prod.fst hkeys
  have h1 : packerBuildParams { cfg with Variables := order }
      = ["build"] ++ (order.map pair).flatMap (fun p => [p.1, p.2]) ++ suffix := by
    rw [packerBuildParams_eq, flatMap_var_pairs]
    simp only [suffix, List.append_assoc]
  have h2 : packerBuildParams cfg
      = ["build"] ++ (cfg.Variables.map pair).flatMap (fun p => [p.1, p.2]) ++ suffix := by
    rw [packerBuildParams_eq, flatMap_var_pairs]
    simp only [suffix, List.append_assoc]
  have h3 : (order.map pair).Perm (cfg.Variables.map pair) := horder.map pair
  refine ⟨h1, h2, h3, ?_, ?_, ?_, ?_⟩
  · intro kv hkv
    rw [horder.countP_eq]
    exact countP_eq_one_of_nodup cfg.Variables kv hnodup hkv
  · intro p
    rw [h3.countP_eq, List.countP_map]
    rfl
  · rw [packerBuildParams_eq]
    simp only [List.length_append, length_var_tokens, List.length_cons, List.length_nil,
      horder.length_eq]
    by_cases hf : cfg.Force.Value = true <;> simp [hf]
  · rw [h1, h2]
    exact List.Perm.append_right suffix
      (List.Perm.append_left ["build"] (h3.flatMap_right (fun p => [p.1, p.2])))

/-- Two variables enumerated in either order: five plus four tokens, the same up to the order
of the two pairs. -/
theorem packerBuild_params_any_order_witness :
    (GoMap.keys twoVarConfig.Variables).Nodup
    ∧ twoVarReordered.Perm twoVarConfig.Variables
    ∧ (packerBuildParams { twoVarConfig with Variables := twoVarReordered }).length = 8
    ∧ (packerBuildParams { twoVarConfig with Variables := twoVarReordered }).Perm
        (packerBuildParams twoVarConfig) :=
  ⟨by decide, List.Perm.swap _ _ _,
   (packerBuild_params_any_order twoVarConfig twoVarReordered (by decide)
     (List.Perm.swap _ _ _)).2.2.2.2.2.1,
   (packerBuild_params_any_order twoVarConfig twoVarReordered (by decide)
     (List.Perm.swap _ _ _)).2.2.2.2.2.2⟩

/-- C8: in Update the command call is a function of the plan alone. For one plan and any two
prior states, each Update runs the command at most once (exactly once unless the response,
the plan or the prior state carries an error diagnostic), and the call it makes is the same
in both cases: the executable, the argument list built from the plan's `variables`, `force`,
`file` and `additional_params`, and the environment that maps the marker to `true` and every
other key to what the plan's `environment` gives it. The prior state's value enters neither
the call nor the world Update leaves. The plan's environment is a map: its keys are
distinct. -/
theorem Update_command_from_plan_only (x : External) (w : World) (plan s1 s2 : TfData)
    (resp1 resp2 : UpdateResourceResponse)
    (hkeys : (GoMap.keys plan.value.Environment).Nodup) :
    (Update x w { Plan := plan, State := s1 } resp1).1.commands
        = w.commands ++
          (if (Diagnostics.HasError resp1.Diagnostics || Diagnostics.HasError plan.diags
              || Diagnostics.HasError s1.diags) = true
           then [] else [packerBuildInvocation x plan.value])
    ∧ (Update x w { Plan := plan, State := s2 } resp2).1.commands
        = w.commands ++
          (if (Diagnostics.HasError resp2.Diagnostics || Diagnostics.HasError plan.diags
              || Diagnostics.HasError s2.diags) = true
           then [] else [packerBuildInvocation x plan.value])
    ∧ ((Diagnostics.HasError resp1.Diagnostics || Diagnostics.HasError plan.diags
          || Diagnostics.HasError s1.diags)
        = (Diagnostics.HasError resp2.Diagnostics || Diagnostics.HasError plan.diags
          || Diagnostics.HasError s2.diags) →
       (Update x w { Plan := plan, State := s1 } resp1).1
        = (Update x w { Plan := plan, State := s2 } resp2).1)
    ∧ (packerBuildInvocation x plan.value).exe = x.Executable
    ∧ (packerBuildInvocation x plan.value).params
        = ["build"] ++ plan.value.Variables.flatMap (fun kv => ["-var", kv.1 ++ "=" ++ kv.2])
          ++ (if plan.value.Force.Value = true then ["-force"] else [])
          ++ [plan.value.File.Value] ++ plan.value.AdditionalParams
    ∧ (∀ k, GoMap.get (packerBuildInvocation x plan.value).envVars k
        = if k = x.tppRunPacker then some "true" else GoMap.get plan.value.Environment k)
    ∧ (∀ k, k ∈ GoMap.keys (packerBuildInvocation x plan.value).envVars
        ↔ k = x.tppRunPacker ∨ k ∈ GoMap.keys plan.value.Environment) := by
  have hget : ∀ k, GoMap.get (packerBuildInvocation x plan.value).envVars k
      = if k = x.tppRunPacker then some "true" else GoMap.get plan.value.Environment k :=
    fun k => packerBuildEnvVars_get x plan.value hkeys k
  refine ⟨?_, ?_, ?_, rfl, packerBuildParams_eq plan.value, hget, ?_⟩
  · rw [Update_world]
    cases (Diagnostics.HasError resp1.Diagnostics || Diagnostics.HasError plan.diags
      || Diagnostics.HasError s1.diags) <;> simp
  · rw [Update_world]
    cases (Diagnostics.HasError resp2.Diagnostics || Diagnostics.HasError plan.diags
      || Diagnostics.HasError s2.diags) <;> simp
  · intro hflag
    rw [Update_world, Update_world]
    simp only [hflag]
  · intro k
    rw [GoMap.mem_keys_iff_get_isSome, GoMap.mem_keys_iff_get_isSome, hget]
    by_cases hk : k = x.tppRunPacker <;> simp [hk]

/-- One plan and two prior states, of which the second differs from the plan in every
attribute that feeds a command: both updates run the one command of the plan. -/
theorem Update_command_from_plan_only_witness :
    (GoMap.keys unknownIdPlan.Environment).Nodup
    ∧ stalePrior.Variables ≠ unknownIdPlan.Variables
    ∧ stalePrior.Environment ≠ unknownIdPlan.Environment
    ∧ stalePrior.File ≠ unknownIdPlan.File
    ∧ (Update sampleExternal priorWorld
        { Plan := decoded unknownIdPlan, State := decoded samplePrior }
        priorUpdateResponse).1.commands
      = [{ exe := "/usr/bin/terraform-provider-packer"
           envVars := [("PACKER_LOG", "1"), ("TPP_RUN_PACKER", "true")]
           params := ["build", "-var", "env=prod", "-force", "image.pkr.hcl", "-debug"] }]
    ∧ (Update sampleExternal priorWorld
        { Plan := decoded unknownIdPlan, State := decoded stalePrior }
        { State := some stalePrior, Diagnostics := [] }).1.commands
      = [{ exe := "/usr/bin/terraform-provider-packer"
           envVars := [("PACKER_LOG", "1"), ("TPP_RUN_PACKER", "true")]
           params := ["build", "-var", "env=prod", "-force", "image.pkr.hcl", "-debug"] }] :=
  ⟨by decide, by decide, by decide, by decide,
   (Update_command_from_plan_only sampleExternal priorWorld (decoded unknownIdPlan)
      (decoded samplePrior) (decoded stalePrior) priorUpdateResponse
      { State := some stalePrior, Diagnostics := [] } (by decide)).1.trans (by decide),
   (Update_command_from_plan_only sampleExternal priorWorld (decoded unknownIdPlan)
      (decoded samplePrior) (decoded stalePrior) priorUpdateResponse
      { State := some stalePrior, Diagnostics := [] } (by decide)).2.1.trans (by decide)⟩

/-! ## The lifecycle -/

/-- C6: when the persisted record decodes without error, Read changes nothing outside (it runs
no command and draws no UUID: the world is as before) and the record it writes to the response
state is the record it read, equal in every field, `id` and `build_uuid` included. -/
theorem Read_reaffirms_record (w : World) (req : ReadResourceRequest)
    (resp : ReadResourceResponse)
    (h0 : Diagnostics.HasError resp.Diagnostics = false)
    (h1 : Diagnostics.HasError req.State.diags = false) :
    (Read w req resp).1 = w
    ∧ (Read w req resp).2.State = some req.State.value
    ∧ (∀ r, (Read w req resp).2.State = some r →
        r.ID = req.State.value.ID ∧ r.BuildUUID = req.State.value.BuildUUID)
    ∧ Diagnostics.HasError (Read w req resp).2.Diagnostics = false := by
  rw [Read_of_decoded w req resp h0 h1]
  refine ⟨rfl, rfl, ?_, ?_⟩
  · intro r hr
    have : req.State.value = r := Option.some.inj hr
    subst this
    exact ⟨rfl, rfl⟩
  · show Diagnostics.HasError (Diagnostics.Append resp.Diagnostics req.State.diags) = false
    rw [Diagnostics.HasError_Append, h0, h1]; rfl

/-- Reading the record of `samplePrior` writes that very record back. -/
theorem Read_reaffirms_record_witness :
    (Read priorWorld { State := decoded samplePrior } priorReadResponse).1 = priorWorld
    ∧ (Read priorWorld { State := decoded samplePrior } priorReadResponse).2.State
        = some samplePrior :=
  ⟨(Read_reaffirms_record priorWorld { State := decoded samplePrior } priorReadResponse
      (by decide) (by decide)).1,
   (Read_reaffirms_record priorWorld { State := decoded samplePrior } priorReadResponse
      (by decide) (by decide)).2.1⟩

/-- C5: when the packer command returns an error, Create and Update each add one error
diagnostic (`Failed to run packer`, with the wrapped error as detail) and return with the
response state exactly as it was handed to them (for Create: still without a record) and
without drawing a UUID. -/
theorem build_error_persists_nothing :
    (∀ (x : External) (w : World) (req : CreateResourceRequest) (resp : CreateResourceResponse)
        (e : String),
      Diagnostics.HasError resp.Diagnostics = false →
      Diagnostics.HasError req.Config.diags = false →
      (x.RunCommandWithEnvReturnOutput w.commands
        (packerBuildInvocation x req.Config.value)).err = some e →
      (Create x w req resp).2.State = resp.State
      ∧ (Create x w req resp).1.draws = w.draws
      ∧ (Create x w req resp).2.Diagnostics
          = Diagnostics.Append resp.Diagnostics req.Config.diags ++
            [{ severity := Severity.Error, summary := "Failed to run packer",
               detail := errorsWrap e ("could not run packer command; output: " ++
                 (x.RunCommandWithEnvReturnOutput w.commands
                   (packerBuildInvocation x req.Config.value)).output) }]
      ∧ Diagnostics.HasError (Create x w req resp).2.Diagnostics = true)
    ∧ (∀ (x : External) (w : World) (req : UpdateResourceRequest)
        (resp : UpdateResourceResponse) (e : String),
      Diagnostics.HasError resp.Diagnostics = false →
      Diagnostics.HasError req.Plan.diags = false →
      Diagnostics.HasError req.State.diags = false →
      (x.RunCommandWithEnvReturnOutput w.commands
        (packerBuildInvocation x req.Plan.value)).err = some e →
      (Update x w req resp).2.State = resp.State
      ∧ (Update x w req resp).1.draws = w.draws
      ∧ (Update x w req resp).2.Diagnostics
          = Diagnostics.Append (Diagnostics.Append resp.Diagnostics req.Plan.diags)
              req.State.diags ++
            [{ severity := Severity.Error, summary := "Failed to run packer",
               detail := errorsWrap e ("could not run packer command; output: " ++
                 (x.RunCommandWithEnvReturnOutput w.commands
                   (packerBuildInvocation x req.Plan.value)).output) }]
      ∧ Diagnostics.HasError (Update x w req resp).2.Diagnostics = true) := by
  constructor
  · intro x w req resp e h0 h1 he
    rw [Create_of_build_err x w req resp e h0 h1 he]
    refine ⟨rfl, rfl, rfl, ?_⟩
    rw [Diagnostics.HasError_iff]
    exact ⟨_, List.mem_append_right _ (List.mem_singleton_self _), rfl⟩
  · intro x w req resp e h0 h1 h2 he
    rw [Update_of_build_err x w req resp e h0 h1 h2 he]
    refine ⟨rfl, rfl, rfl, ?_⟩
    rw [Diagnostics.HasError_iff]
    exact ⟨_, List.mem_append_right _ (List.mem_singleton_self _), rfl⟩

/-- With a command that fails, Create leaves the response without a record and Update leaves
the prior record, and neither draws a UUID. -/
theorem build_error_persists_nothing_witness :
    ((Create failingExternal emptyWorld { Config := decoded sampleConfig }
        freshCreateResponse).2.State = none
      ∧ (Create failingExternal emptyWorld { Config := decoded sampleConfig }
        freshCreateResponse).1.draws = 0)
    ∧ ((Update failingExternal priorWorld
        { Plan := decoded unknownIdPlan, State := decoded samplePrior }
        priorUpdateResponse).2.State = some samplePrior
      ∧ (Update failingExternal priorWorld
        { Plan := decoded unknownIdPlan, State := decoded samplePrior }
        priorUpdateResponse).1.draws = 2) :=
  ⟨⟨(build_error_persists_nothing.1 failingExternal emptyWorld
        { Config := decoded sampleConfig } freshCreateResponse "exit status 1"
        (by decide) (by decide) (by decide)).1,
    (build_error_persists_nothing.1 failingExternal emptyWorld
        { Config := decoded sampleConfig } freshCreateResponse "exit status 1"
        (by decide) (by decide) (by decide)).2.1⟩,
   ⟨(build_error_persists_nothing.2 failingExternal priorWorld
        { Plan := decoded unknownIdPlan, State := decoded samplePrior } priorUpdateResponse
        "exit status 1" (by decide) (by decide) (by decide) (by decide)).1,
    (build_error_persists_nothing.2 failingExternal priorWorld
        { Plan := decoded unknownIdPlan, State := decoded samplePrior } priorUpdateResponse
        "exit status 1" (by decide) (by decide) (by decide) (by decide)).2.1⟩⟩

/-- C2: when the build succeeds, the `build_uuid` of the record that Create or Update
persists is the UUID drawn last during that operation (the operation draws one UUID, or two
when the id was unknown), whatever `build_uuid` the configuration, the plan or the prior state
carried; so two successive successful Updates persist two distinct `build_uuid` values as soon
as the UUIDs drawn in the second differ from those drawn in the first. -/
theorem build_uuid_is_fresh_draw :
    (∀ (x : External) (w : World) (req : CreateResourceRequest) (resp : CreateResourceResponse),
      Diagnostics.HasError resp.Diagnostics = false →
      Diagnostics.HasError req.Config.diags = false →
      (x.RunCommandWithEnvReturnOutput w.commands
        (packerBuildInvocation x req.Config.value)).err = none →
      ∃ r, (Create x w req resp).2.State = some r
        ∧ r.BuildUUID = TypesString.ofValue (x.NewRandom ((Create x w req resp).1.draws - 1))
        ∧ (Create x w req resp).1.draws
            = w.draws + (if req.Config.value.ID.Unknown = true then 2 else 1))
    ∧ (∀ (x : External) (w : World) (req : UpdateResourceRequest)
        (resp : UpdateResourceResponse),
      Diagnostics.HasError resp.Diagnostics = false →
      Diagnostics.HasError req.Plan.diags = false →
      Diagnostics.HasError req.State.diags = false →
      (x.RunCommandWithEnvReturnOutput w.commands
        (packerBuildInvocation x req.Plan.value)).err = none →
      ∃ r, (Update x w req resp).2.State = some r
        ∧ r.BuildUUID = TypesString.ofValue (x.NewRandom ((Update x w req resp).1.draws - 1))
        ∧ (Update x w req resp).1.draws
            = w.draws + (if req.Plan.value.ID.Unknown = true then 2 else 1))
    ∧ (∀ (x : External) (w w1 w2 : World) (req1 req2 : UpdateResourceRequest)
        (resp1 resp2 out1 out2 : UpdateResourceResponse),
      Update x w req1 resp1 = (w1, out1) →
      Update x w1 req2 resp2 = (w2, out2) →
      Diagnostics.HasError resp1.Diagnostics = false →
      Diagnostics.HasError req1.Plan.diags = false →
      Diagnostics.HasError req1.State.diags = false →
      (x.RunCommandWithEnvReturnOutput w.commands
        (packerBuildInvocation x req1.Plan.value)).err = none →
      Diagnostics.HasError resp2.Diagnostics = false →
      Diagnostics.HasError req2.Plan.diags = false →
      Diagnostics.HasError req2.State.diags = false →
      (x.RunCommandWithEnvReturnOutput w1.commands
        (packerBuildInvocation x req2.Plan.value)).err = none →
      (∀ i j, w.draws ≤ i → i < w1.draws → w1.draws ≤ j → j < w2.draws →
        x.NewRandom i ≠ x.NewRandom j) →
      ∃ r1 r2, out1.State = some r1 ∧ out2.State = some r2
        ∧ r1.BuildUUID ≠ r2.BuildUUID) := by
  refine ⟨?_, ?_, ?_⟩
  · intro x w req resp h0 h1 hok
    rw [Create_of_build_ok x w req resp h0 h1 hok]
    refine ⟨_, rfl, ?_, rfl⟩
    by_cases hu : req.Config.value.ID.Unknown = true <;> simp [hu]
  · intro x w req resp h0 h1 h2 hok
    rw [Update_of_build_ok x w req resp h0 h1 h2 hok]
    refine ⟨_, rfl, ?_, rfl⟩
    by_cases hu : req.Plan.value.ID.Unknown = true <;> simp [hu]
  · intro x w w1 w2 req1 req2 resp1 resp2 out1 out2 hU1 hU2 a0 a1 a2 aok b0 b1 b2 bok hdiff
    rw [Update_of_build_ok x w req1 resp1 a0 a1 a2 aok] at hU1
    rw [Update_of_build_ok x w1 req2 resp2 b0 b1 b2 bok] at hU2
    have hw1 := congrArg (fun p => p.1.draws) hU1
    have ho1 := congrArg (fun p => p.2.State) hU1
    have hw2 := congrArg (fun p => p.1.draws) hU2
    have ho2 := congrArg (fun p => p.2.State) hU2
    simp only at hw1 ho1 hw2 ho2
    refine ⟨_, _, ho1.symm, ho2.symm, ?_⟩
    apply TypesString.ofValue_ne
    apply hdiff
    · omega
    · by_cases hu : req1.Plan.value.ID.Unknown = true <;> simp [hu] at hw1 ⊢ <;> omega
    · omega
    · by_cases hu : req2.Plan.value.ID.Unknown = true <;> simp [hu] at hw2 ⊢ <;> omega

/-- A create and two successive updates with a command that succeeds: each persists the UUID
it drew last, and the two updates persist different build UUIDs. -/
theorem build_uuid_is_fresh_draw_witness :
    (∃ r, (Create sampleExternal emptyWorld { Config := decoded sampleConfig }
        freshCreateResponse).2.State = some r
      ∧ r.BuildUUID = TypesString.ofValue (sampleExternal.NewRandom
          ((Create sampleExternal emptyWorld { Config := decoded sampleConfig }
            freshCreateResponse).1.draws - 1))
      ∧ (Create sampleExternal emptyWorld { Config := decoded sampleConfig }
          freshCreateResponse).1.draws
          = emptyWorld.draws + (if sampleConfig.ID.Unknown = true then 2 else 1))
    ∧ (∃ r, firstUpdate.2.State = some r
      ∧ r.BuildUUID = TypesString.ofValue (sampleExternal.NewRandom (firstUpdate.1.draws - 1))
      ∧ firstUpdate.1.draws
          = priorWorld.draws + (if knownIdPlan.ID.Unknown = true then 2 else 1))
    ∧ (∃ r1 r2, firstUpdate.2.State = some r1 ∧ secondUpdate.2.State = some r2
      ∧ r1.BuildUUID ≠ r2.BuildUUID) :=
  ⟨build_uuid_is_fresh_draw.1 sampleExternal emptyWorld { Config := decoded sampleConfig }
      freshCreateResponse (by decide) (by decide) (by decide),
   build_uuid_is_fresh_draw.2.1 sampleExternal priorWorld firstUpdateRequest
      priorUpdateResponse (by decide) (by decide) (by decide) (by decide),
   build_uuid_is_fresh_draw.2.2 sampleExternal priorWorld firstUpdate.1 secondUpdate.1
      firstUpdateRequest secondUpdateRequest priorUpdateResponse firstUpdate.2
      firstUpdate.2 secondUpdate.2 rfl rfl
      (by decide) (by decide) (by decide) (by decide)
      (by decide) (by decide) (by decide) (by decide)
      (by
        intro i j h1 h2 h3 h4
        have e1 : firstUpdate.1.draws = 3 := by decide
        have e2 : secondUpdate.1.draws = 4 := by decide
        have hi : i = 2 := by
          have : priorWorld.draws = 2 := rfl
          omega
        have hj : j = 3 := by omega
        subst hi hj
        decide)⟩

/-- C3 (evaluation of the code): an Update of `samplePrior` whose plan leaves the computed id
unknown, as the plan of an update does, with a command that succeeds. The record persisted
carries a newly drawn id, not the id of the prior record; two such updates in a row leave yet
another id. -/
theorem Update_remints_unknown_id :
    Diagnostics.HasError priorUpdateResponse.Diagnostics = false
    ∧ (sampleExternal.RunCommandWithEnvReturnOutput priorWorld.commands
        (packerBuildInvocation sampleExternal unknownIdPlan)).err = none
    ∧ (∃ r, (Update sampleExternal priorWorld
          { Plan := decoded unknownIdPlan, State := decoded samplePrior }
          priorUpdateResponse).2.State = some r
        ∧ r.ID = TypesString.ofValue (sampleExternal.NewRandom 2)
        ∧ r.ID ≠ samplePrior.ID)
    ∧ (∃ r, (UpdateSeq sampleExternal priorWorld samplePrior
          [decoded unknownIdPlan, decoded unknownIdPlan]).2 = some r
        ∧ r.ID = TypesString.ofValue (sampleExternal.NewRandom 4)
        ∧ r.ID ≠ samplePrior.ID
        ∧ r.ID ≠ TypesString.ofValue (sampleExternal.NewRandom 2)) :=
  ⟨by decide, by decide, ⟨_, rfl, by decide, by decide⟩,
   ⟨_, rfl, by decide, by decide, by decide⟩⟩

/-- C4 (evaluation of the code): Create on a configuration whose id is null, as the id of a
configuration is, with a command that succeeds: the record persisted still has a null id; one
UUID was drawn, for `build_uuid`, and none for the id. -/
theorem Create_leaves_null_id :
    sampleConfig.ID.Null = true ∧ sampleConfig.ID.Unknown = false
    ∧ (sampleExternal.RunCommandWithEnvReturnOutput emptyWorld.commands
        (packerBuildInvocation sampleExternal sampleConfig)).err = none
    ∧ ∃ r, (Create sampleExternal emptyWorld { Config := decoded sampleConfig }
          freshCreateResponse).2.State = some r
        ∧ r.ID = sampleConfig.ID
        ∧ r.ID.Null = true
        ∧ r.BuildUUID = TypesString.ofValue (sampleExternal.NewRandom 0)
        ∧ (Create sampleExternal emptyWorld { Config := decoded sampleConfig }
            freshCreateResponse).1.draws = 1 :=
  ⟨rfl, rfl, by decide, _, rfl, by decide, by decide, by decide, by decide⟩

end Provider
